import Mathlib

/-!
Shallow embedding of the django-voting trunk source (src/trunk/models.py).

The Vote model is a row of the `votes` table: a storage-assigned primary key
`id`, the voting user's id, the content-type tag and object id of the target,
and the vote value.  `VoteManager` methods become Lean functions over an
explicit store.  Write operations (`record_vote`) act on a `Store` carrying
the row list and the next storage-assigned id; read-only operations
(`get_score`, `get_scores_in_bulk`, `get_for_user`, `get_for_user_in_bulk`
and the post-query part of `get_top`) take the row list directly, since they
only inspect it.  SQL aggregates are modelled by their clause semantics:
`SUM` over an empty row set is NULL (here `Option.none`), `COUNT` is the row
count; `GROUP BY object_id` yields one entry per distinct object id that has
at least one matching row; a Python dict built from key-value pairs is an
association list whose lookup takes the last binding of a key.
-/

namespace Voting

/-- One row of the `votes` table (class Vote in models.py): primary key,
user id, content-type id, object id, and the vote value. -/
structure Vote where
  id : Nat
  user : Nat
  content_type : Nat
  object_id : Nat
  vote : Int
deriving DecidableEq, Repr

/-- The vote store: the rows of the `votes` table plus the next
storage-assigned primary key. -/
structure Store where
  rows : List Vote
  next : Nat
deriving DecidableEq, Repr

/-- Errors record_vote can raise: the ValueError for an out-of-range value
(models.py line 53), and Django's MultipleObjectsReturned, which `self.get`
would raise if the unique_together constraint were violated. -/
inductive VoteError where
  | invalidVote
  | multipleObjectsReturned
deriving DecidableEq, Repr

/-- The filter `user=user, content_type=ctype, object_id=obj.id` used by
`self.get` inside record_vote (models.py line 56). -/
def keyMatch (u ct oid : Nat) (v : Vote) : Bool :=
  v.user = u && v.content_type = ct && v.object_id = oid

/-- The rows currently matching a (user, content_type, object_id) key. -/
def keyRows (s : Store) (u ct oid : Nat) : List Vote :=
  s.rows.filter (keyMatch u ct oid)

/-- VoteManager.record_vote (models.py lines 45-65).  Rejects values outside
(+1, 0, -1) with ValueError before touching the store; then tries
`self.get(user=..., content_type=..., object_id=...)`: on a hit, vote == 0
deletes the row (by primary key) and a nonzero vote overwrites the row's
value (`v.vote = vote; v.save()`); on Vote.DoesNotExist, a nonzero vote
creates a new row and a zero vote does nothing.  The first component reports
a raised exception (in which case the returned store is the unchanged
input); the second is the resulting store. -/
def record_vote (s : Store) (u ct oid : Nat) (vote : Int) :
    Option VoteError × Store :=
  if ¬ (vote = 1 ∨ vote = 0 ∨ vote = -1) then (some .invalidVote, s)
  else
    match s.rows.filter (keyMatch u ct oid) with
    | [] =>
        if vote ≠ 0 then
          (none, ⟨s.rows ++ [⟨s.next, u, ct, oid, vote⟩], s.next + 1⟩)
        else (none, s)
    | [v] =>
        if vote = 0 then
          (none, ⟨s.rows.filter (fun w => w.id != v.id), s.next⟩)
        else
          (none, ⟨s.rows.map (fun w =>
                  if w.id = v.id then { w with vote := vote } else w),
                s.next⟩)
    | _ => (some .multipleObjectsReturned, s)

/-- A sequence of record_vote calls by the same user on the same target,
executed sequentially (exceptions leave the store unchanged, as in the
source, where the ValueError is raised before any write). -/
def record_sequence (s : Store) (u ct oid : Nat) (vs : List Int) : Store :=
  vs.foldl (fun st v => (record_vote st u ct oid v).2) s

/-- Django `.get` on the (user, content_type, object_id) filter, as used by
callers that need the single matching row: under the unique_together
constraint at most one row matches, so the head of the filtered list is the
unique hit when present. -/
def find_vote (s : Store) (u ct oid : Nat) : Option Vote :=
  (s.rows.filter (keyMatch u ct oid)).head?

/-- The score/num_votes dictionary returned by get_score and (per object)
by get_scores_in_bulk. -/
structure ScoreEntry where
  score : Int
  num_votes : Nat
deriving DecidableEq, Repr

/-- The rows of the `votes` table for one (content_type_id, object_id)
target, i.e. the WHERE clause of the get_score query. -/
def objVotes (rows : List Vote) (ct oid : Nat) : List Vote :=
  rows.filter (fun v => v.content_type = ct && v.object_id = oid)

/-- SQL SUM(vote): NULL (none) over an empty row set, otherwise the sum. -/
def sql_sum (l : List Vote) : Option Int :=
  if l.isEmpty then none else some ((l.map Vote.vote).sum)

/-- Python `x or 0` applied to the fetched SUM: None becomes 0, a falsy 0
stays 0, any other value is kept. -/
def orZero (o : Option Int) : Int :=
  match o with
  | none => 0
  | some x => if x = 0 then 0 else x

/-- VoteManager.get_score (models.py lines 6-20): one aggregate row
(SUM(vote), COUNT(*)) for the target; `result[0] or 0` turns an absent sum
into 0. -/
def get_score (rows : List Vote) (ct oid : Nat) : ScoreEntry :=
  ⟨orZero (sql_sum (objVotes rows ct oid)), (objVotes rows ct oid).length⟩

/-- An opaque (kind, id) target reference: `kind` is the content-type of the
object's model, `id` its primary key. -/
structure Target where
  kind : Nat
  id : Nat
deriving DecidableEq, Repr

/-- The error get_scores_in_bulk raises on an empty input: `objects[0]`
(models.py line 36) raises IndexError before any query is issued. -/
inductive BulkError where
  | indexError
deriving DecidableEq, Repr

/-- One group of the bulk query `SELECT object_id, SUM(vote), COUNT(vote)
... GROUP BY object_id`: none when the target has no matching rows (the
group is then absent from the result set), otherwise its sum and count.
The WHERE clause restricting to one (content_type_id, object_id) pair is
the same as in get_score, hence the shared objVotes. -/
def score_row (rows : List Vote) (ct i : Nat) : Option ScoreEntry :=
  let vs := objVotes rows ct i
  if vs.isEmpty then none else some ⟨(vs.map Vote.vote).sum, vs.length⟩

/-- Result set of the grouped bulk query over the ids in the IN-clause:
one (object_id, score, num_votes) entry per distinct requested id that has
at least one row under content-type `ct`. -/
def group_scores (rows : List Vote) (ct : Nat) (ids : List Nat) :
    List (Nat × ScoreEntry) :=
  ids.dedup.filterMap (fun i => (score_row rows ct i).map (fun e => (i, e)))

/-- VoteManager.get_scores_in_bulk (models.py lines 22-43).  Builds the
grouped query, then evaluates `objects[0]` to obtain the content type: on an
empty list this raises IndexError before any query; otherwise the single
query uses the FIRST object's content type and all the given ids, and the
rows are returned as the dictionary object_id to score/num_votes. -/
def get_scores_in_bulk (rows : List Vote) (objects : List Target) :
    Except BulkError (List (Nat × ScoreEntry)) :=
  match objects with
  | [] => .error .indexError
  | o :: rest => .ok (group_scores rows o.kind (List.map Target.id (o :: rest)))

/-- First binding of a key in an association list. -/
def assoc_find {α : Type} : List (Nat × α) → Nat → Option α
  | [], _ => none
  | q :: rest, k => if k = q.1 then some q.2 else assoc_find rest k

/-- Lookup in a Python dict built with `dict(pairs)`: the last binding of a
key wins, so look the key up in the reversed pair list. -/
def dict_get {α : Type} (l : List (Nat × α)) (k : Nat) : Option α :=
  assoc_find l.reverse k

/-- A host user as the engine sees it: an id and the
`user.is_authenticated()` predicate supplied by the identity system. -/
structure User where
  id : Nat
  is_authenticated : Bool
deriving DecidableEq, Repr

/-- VoteManager.get_for_user (models.py lines 104-116): returns None without
querying when the user is not authenticated; otherwise fetches the unique
row matching (content_type, object_id, user), None when absent. -/
def get_for_user (rows : List Vote) (ct oid : Nat) (u : User) : Option Vote :=
  if ¬ u.is_authenticated then none
  else
    (rows.filter (fun v =>
      v.content_type = ct && v.object_id = oid && v.user = u.id)).head?

/-- VoteManager.get_for_user_in_bulk (models.py lines 118-130): an empty
dictionary when `objects` is empty; otherwise one query filtered by the
first object's content type, the given object ids, and the user's id,
returned as the pair list feeding `dict(...)` keyed by object_id.  There is
no authentication check. -/
def get_for_user_in_bulk (rows : List Vote) (objects : List Target)
    (u : User) : List (Nat × Vote) :=
  match objects with
  | [] => []
  | o :: rest =>
      let ids := List.map Target.id (o :: rest)
      let votes := rows.filter (fun v =>
        v.content_type = o.kind && ids.contains v.object_id && v.user = u.id)
      List.map (fun v => (v.object_id, v)) votes

/-- The name of the votes table, as interpolated into the query strings. -/
def votes_table : String := "votes"

/-- The SQL string built by VoteManager.get_top (models.py lines 74-83):
the triple-quoted base query ends in `GROUP BY object_id` with no trailing
whitespace, and the HAVING/ORDER BY/LIMIT tail is concatenated directly
onto it. -/
def get_top_query (table : String) (reversed : Bool) : String :=
  let query := "\nSELECT object_id, SUM(vote)\nFROM " ++ table ++
    "\nWHERE content_type_id = %s\nGROUP BY object_id"
  if reversed then
    query ++ "HAVING SUM(vote) < 0 ORDER BY SUM(vote) ASC LIMIT %s"
  else
    query ++ "HAVING SUM(vote) > 0 ORDER BY SUM(vote) DESC LIMIT %s"

/-- The post-query part of get_top (models.py lines 86-94): `in_bulk` is the
host resolver mapping ids to still-existing objects; the loop yields
(object, score) for each returned (id, score) row whose id the resolver
knows, silently skipping missing ids. -/
def resolve_ranked {Obj : Type} (results : List (Nat × Int))
    (objects : Nat → Option Obj) : List (Obj × Int) :=
  results.filterMap (fun p =>
    match objects p.1 with
    | some o => some (o, p.2)
    | none => none)

/-! ### Helper lemmas -/

/-- Python `x or 0` is the identity on an actually fetched sum. -/
theorem orZero_some (x : Int) : orZero (some x) = x := by
  unfold orZero
  by_cases h : x = 0 <;> simp [h]

/-- A successful assoc_find lookup comes from a pair in the list. -/
theorem assoc_find_eq_some {α : Type} :
    ∀ (l : List (Nat × α)) (k : Nat) (e : α),
      assoc_find l k = some e → (k, e) ∈ l := by
  intro l
  induction l with
  | nil =>
      intro k e h
      simp [assoc_find] at h
  | cons q rest ih =>
      intro k e h
      rw [assoc_find] at h
      split at h
      · rename_i hk
        cases h
        rw [hk]
        exact List.mem_cons_self _ _
      · exact List.mem_cons_of_mem _ (ih k e h)

/-- A pair whose key is k forces assoc_find at k to hit something. -/
theorem assoc_find_mem {α : Type} :
    ∀ (l : List (Nat × α)) (k : Nat) (p : Nat × α),
      p ∈ l → p.1 = k → assoc_find l k ≠ none := by
  intro l
  induction l with
  | nil =>
      intro k p hp
      simp at hp
  | cons q rest ih =>
      intro k p hp hk
      rw [assoc_find]
      by_cases h : k = q.1
      · simp [h]
      · rw [if_neg h]
        rcases List.mem_cons.mp hp with hq | hmem
        · exact absurd (hq ▸ hk) (fun hh => h hh.symm)
        · exact ih k p hmem hk

/-- After one valid record_vote call from a state with at most one row for
the key, the rows for that key carry exactly the submitted value, or none
when the submitted value was 0. -/
theorem record_vote_keyRows (s : Store) (u ct oid : Nat) (v : Int)
    (hv : v = 1 ∨ v = 0 ∨ v = -1)
    (hinv : (keyRows s u ct oid).length ≤ 1) :
    (keyRows (record_vote s u ct oid v).2 u ct oid).map Vote.vote
      = if v = 0 then [] else [v] := by
  unfold record_vote
  rw [if_neg (not_not_intro hv)]
  cases hf : s.rows.filter (keyMatch u ct oid) with
  | nil =>
      by_cases h0 : v = 0
      · simp only [h0, ne_eq, not_true_eq_false, if_false, if_true,
          reduceIte]
        simp [keyRows, hf]
      · simp only [ne_eq, h0, not_false_eq_true, if_true, reduceIte]
        simp [keyRows, List.filter_append, hf, keyMatch]
  | cons r rest =>
      cases rest with
      | cons r2 t =>
          exfalso
          have hk : keyRows s u ct oid = r :: r2 :: t := hf
          rw [hk] at hinv
          simp at hinv
      | nil =>
          have huniq : ∀ w ∈ s.rows, keyMatch u ct oid w = true → w = r := by
            intro w hw hkm
            have hmem : w ∈ s.rows.filter (keyMatch u ct oid) :=
              List.mem_filter.mpr ⟨hw, hkm⟩
            rw [hf] at hmem
            simpa using hmem
          by_cases h0 : v = 0
          · simp only [h0, reduceIte]
            have hnil : (s.rows.filter (fun w => w.id != r.id)).filter
                (keyMatch u ct oid) = [] := by
              rw [List.filter_filter]
              rw [List.filter_eq_nil_iff]
              intro w hw hcontra
              rcases Bool.and_eq_true .. |>.mp hcontra with ⟨hkm, hid⟩
              have hwr : w = r := huniq w hw hkm
              rw [hwr] at hid
              simp at hid
            simp [keyRows, hnil]
          · simp only [h0, reduceIte]
            have hpf : ∀ w ∈ s.rows,
                keyMatch u ct oid
                  (if w.id = r.id then { w with vote := v } else w)
                  = keyMatch u ct oid w := by
              intro w _
              by_cases h : w.id = r.id <;> simp [h, keyMatch]
            have hfm : (s.rows.map (fun w =>
                  if w.id = r.id then { w with vote := v } else w)).filter
                  (keyMatch u ct oid)
                = (s.rows.filter (keyMatch u ct oid)).map (fun w =>
                  if w.id = r.id then { w with vote := v } else w) := by
              rw [List.filter_map]
              rw [List.filter_congr]
              intro w hw
              exact hpf w hw
            simp only [keyRows, hfm, hf]
            simp

/-- record_vote never raises when the value is valid and the key obeys the
uniqueness invariant. -/
theorem record_vote_no_error (s : Store) (u ct oid : Nat) (v : Int)
    (hv : v = 1 ∨ v = 0 ∨ v = -1)
    (hinv : (keyRows s u ct oid).length ≤ 1) :
    (record_vote s u ct oid v).1 = none := by
  unfold record_vote
  rw [if_neg (not_not_intro hv)]
  cases hf : s.rows.filter (keyMatch u ct oid) with
  | nil => by_cases h0 : v = 0 <;> simp [h0]
  | cons r rest =>
      cases rest with
      | cons r2 t =>
          exfalso
          have hk : keyRows s u ct oid = r :: r2 :: t := hf
          rw [hk] at hinv
          simp at hinv
      | nil => by_cases h0 : v = 0 <;> simp [h0]

/-- Any single record_vote call preserves the at-most-one-row invariant for
the key, including calls that raise (they leave the store unchanged). -/
theorem record_vote_inv (s : Store) (u ct oid : Nat) (v : Int)
    (hinv : (keyRows s u ct oid).length ≤ 1) :
    (keyRows (record_vote s u ct oid v).2 u ct oid).length ≤ 1 := by
  by_cases hv : v = 1 ∨ v = 0 ∨ v = -1
  · have h := record_vote_keyRows s u ct oid v hv hinv
    have hlen : (keyRows (record_vote s u ct oid v).2 u ct oid).length
        = ((keyRows (record_vote s u ct oid v).2 u ct oid).map
            Vote.vote).length := (List.length_map _ _).symm
    rw [hlen, h]
    by_cases h0 : v = 0 <;> simp [h0]
  · have hsame : (record_vote s u ct oid v).2 = s := by
      unfold record_vote
      rw [if_pos hv]
    rw [hsame]
    exact hinv

/-- A whole sequence of record_vote calls preserves the at-most-one-row
invariant for the key. -/
theorem record_sequence_inv (u ct oid : Nat) (vs : List Int) :
    ∀ (s : Store), (keyRows s u ct oid).length ≤ 1 →
      (keyRows (record_sequence s u ct oid vs) u ct oid).length ≤ 1 := by
  induction vs with
  | nil => intro s h; exact h
  | cons v rest ih =>
      intro s h
      exact ih _ (record_vote_inv s u ct oid v h)

/-- After a sequence ending in a valid value v, the rows for the key carry
exactly v, or nothing when v = 0. -/
theorem record_sequence_last (u ct oid : Nat) (vs : List Int) (v : Int)
    (s : Store) (hv : v = 1 ∨ v = 0 ∨ v = -1)
    (hinv : (keyRows s u ct oid).length ≤ 1) :
    (keyRows (record_sequence s u ct oid (vs ++ [v])) u ct oid).map Vote.vote
      = if v = 0 then [] else [v] := by
  have h1 : record_sequence s u ct oid (vs ++ [v])
      = (record_vote (record_sequence s u ct oid vs) u ct oid v).2 := by
    unfold record_sequence
    rw [List.foldl_append]
    rfl
  rw [h1]
  exact record_vote_keyRows _ u ct oid v hv
    (record_sequence_inv u ct oid vs s hinv)

/-! ### Claim theorems -/

/-- C1: for every sequence of record_vote calls by the same user on the same
target, executed sequentially from a state obeying the uniqueness invariant
for that key, at most one Vote row for the (user, target) pair exists
afterward; when the sequence is nonempty, the row's value is the last
submitted value when that value is nonzero (hence the last nonzero value
submitted), and no row exists when the last submitted value was 0. -/
theorem record_vote_sequence_unique_last (s : Store) (u ct oid : Nat)
    (vs : List Int)
    (hval : ∀ v ∈ vs, v = 1 ∨ v = 0 ∨ v = -1)
    (hinv : (keyRows s u ct oid).length ≤ 1) :
    (keyRows (record_sequence s u ct oid vs) u ct oid).length ≤ 1 ∧
    ∀ (init : List Int) (last : Int), vs = init ++ [last] →
      (keyRows (record_sequence s u ct oid vs) u ct oid).map Vote.vote
        = if last = 0 then [] else [last] := by
  refine ⟨record_sequence_inv u ct oid vs s hinv, ?_⟩
  intro init last hsplit
  subst hsplit
  exact record_sequence_last u ct oid init last s
    (hval last (by simp)) hinv

/-- C1 witness: from the empty store, the sequence +1 then -1 by user 7 on
target (0, 3) leaves exactly one row, carrying the last value -1. -/
theorem record_vote_sequence_unique_last_witness :
    (keyRows (record_sequence ⟨[], 0⟩ 7 0 3 [1, -1]) 7 0 3).map Vote.vote
      = [-1] := by
  have h := record_vote_sequence_unique_last ⟨[], 0⟩ 7 0 3 [1, -1]
    (by decide) (by decide)
  have h2 := h.2 [1] (-1) rfl
  simpa using h2

/-- C2: for a value in (+1, 0, -1), record_vote implements exactly the four
cases: an existing row is deleted on value 0 and overwritten on a nonzero
value; with no existing row, value 0 leaves the store unchanged and a
nonzero value creates a row with that value. -/
theorem record_vote_four_cases (s : Store) (u ct oid : Nat) (v : Int)
    (hv : v = 1 ∨ v = 0 ∨ v = -1)
    (hinv : (keyRows s u ct oid).length ≤ 1) :
    (∀ r, find_vote s u ct oid = some r → v = 0 →
        record_vote s u ct oid v
          = (none, ⟨s.rows.filter (fun w => w.id != r.id), s.next⟩)) ∧
    (∀ r, find_vote s u ct oid = some r → v ≠ 0 →
        record_vote s u ct oid v
          = (none, ⟨s.rows.map (fun w =>
                if w.id = r.id then { w with vote := v } else w),
              s.next⟩)) ∧
    (find_vote s u ct oid = none → v = 0 →
        record_vote s u ct oid v = (none, s)) ∧
    (find_vote s u ct oid = none → v ≠ 0 →
        record_vote s u ct oid v
          = (none, ⟨s.rows ++ [⟨s.next, u, ct, oid, v⟩], s.next + 1⟩)) := by
  unfold record_vote find_vote
  rw [if_neg (not_not_intro hv)]
  cases hf : s.rows.filter (keyMatch u ct oid) with
  | nil =>
      refine ⟨?_, ?_, ?_, ?_⟩
      · intro r hr; simp at hr
      · intro r hr; simp at hr
      · intro _ h0; simp [h0]
      · intro _ h0; simp [h0]
  | cons r rest =>
      cases rest with
      | cons r2 t =>
          exfalso
          have hk : keyRows s u ct oid = r :: r2 :: t := hf
          rw [hk] at hinv
          simp at hinv
      | nil =>
          refine ⟨?_, ?_, ?_, ?_⟩
          · intro r' hr' h0
            have hrr : r = r' := by simpa using hr'
            subst hrr
            simp [h0]
          · intro r' hr' h0
            have hrr : r = r' := by simpa using hr'
            subst hrr
            simp [h0]
          · intro hc; simp at hc
          · intro hc; simp at hc

/-- C2 witness: on the empty store (no existing row) a +1 vote creates the
row; exercised through the fourth case of the theorem. -/
theorem record_vote_four_cases_witness :
    record_vote ⟨[], 0⟩ 7 0 3 1 = (none, ⟨[⟨0, 7, 0, 3, 1⟩], 1⟩) := by
  have h := record_vote_four_cases ⟨[], 0⟩ 7 0 3 1 (by decide) (by decide)
  exact h.2.2.2 (by decide) (by decide)

/-- C3: the SQL string built by get_top fuses `GROUP BY object_id` directly
onto the HAVING clause with no separating whitespace (the token
`object_idHAVING`), in both the top and the reversed (bottom) direction, so
the query sent to the store is malformed and every ranked query fails
rather than returning the filtered, ordered, truncated sums. -/
theorem get_top_query_malformed :
    get_top_query votes_table false
      = "\nSELECT object_id, SUM(vote)\nFROM votes\nWHERE content_type_id = %s\nGROUP BY object_idHAVING SUM(vote) > 0 ORDER BY SUM(vote) DESC LIMIT %s" ∧
    get_top_query votes_table true
      = "\nSELECT object_id, SUM(vote)\nFROM votes\nWHERE content_type_id = %s\nGROUP BY object_idHAVING SUM(vote) < 0 ORDER BY SUM(vote) ASC LIMIT %s" :=
  ⟨rfl, rfl⟩

/-- C4: get_score on a target with no stored votes returns score 0 and
num_votes 0, and does not fail. -/
theorem get_score_unvoted (rows : List Vote) (ct oid : Nat)
    (h : objVotes rows ct oid = []) :
    get_score rows ct oid = ⟨0, 0⟩ := by
  unfold get_score
  rw [h]
  rfl

/-- C4 witness: a store holding a vote on object 5 has no votes on object 9,
whose score is therefore the defined zero. -/
theorem get_score_unvoted_witness :
    objVotes ([⟨0, 1, 0, 5, 1⟩] : List Vote) 0 9 = [] ∧
    get_score ([⟨0, 1, 0, 5, 1⟩] : List Vote) 0 9 = ⟨0, 0⟩ :=
  ⟨by decide, get_score_unvoted _ 0 9 (by decide)⟩

/-- C5: a value outside (+1, 0, -1) makes record_vote fail with the
invalid-vote error, raised by the check that precedes every store access in
the source, and the returned store is the unchanged input. -/
theorem record_vote_invalid_rejected (s : Store) (u ct oid : Nat) (v : Int)
    (hv : ¬ (v = 1 ∨ v = 0 ∨ v = -1)) :
    record_vote s u ct oid v = (some VoteError.invalidVote, s) := by
  unfold record_vote
  rw [if_pos hv]

/-- C5 witness: record_vote with value 2 on a populated store raises
invalidVote and leaves the store exactly as it was. -/
theorem record_vote_invalid_rejected_witness :
    ¬ ((2 : Int) = 1 ∨ (2 : Int) = 0 ∨ (2 : Int) = -1) ∧
    record_vote ⟨[⟨0, 7, 0, 3, 1⟩], 1⟩ 7 0 3 2
      = (some VoteError.invalidVote, ⟨[⟨0, 7, 0, 3, 1⟩], 1⟩) :=
  ⟨by decide, record_vote_invalid_rejected _ 7 0 3 2 (by decide)⟩

/-- C6 counterexample: get_scores_in_bulk on an empty target list does not
return an empty mapping; it fails with the index error raised by taking the
first element of the empty list. -/
theorem get_scores_in_bulk_empty_fails_cex :
    get_scores_in_bulk ([] : List Vote) ([] : List Target)
        = Except.error BulkError.indexError ∧
    get_scores_in_bulk ([] : List Vote) ([] : List Target)
        ≠ Except.ok [] :=
  ⟨rfl, fun h => nomatch h⟩

/-- C6 amended: get_for_user_in_bulk on an empty target collection returns
the empty mapping and does not fail, but get_scores_in_bulk on an empty
target collection fails with an index error (objects[0] on the empty list)
before issuing any query. -/
theorem bulk_empty_input_amended (rows : List Vote) (u : User) :
    get_for_user_in_bulk rows [] u = [] ∧
    get_scores_in_bulk rows [] = Except.error BulkError.indexError :=
  ⟨rfl, rfl⟩

/-- C7 counterexample: a bulk score lookup over targets of two different
kinds does not fail at all; with a vote on (kind 0, id 2) in the store and
the mixed targets (kind 0, id 1) and (kind 1, id 2), it succeeds and even
reports id 2 of the kind-1 target scored under kind 0. -/
theorem get_scores_in_bulk_mixed_kind_cex :
    get_scores_in_bulk ([⟨0, 1, 0, 2, 1⟩] : List Vote)
        [⟨0, 1⟩, ⟨1, 2⟩]
      = Except.ok [(2, ⟨1, 1⟩)] :=
  rfl

/-- C7 amended: get_scores_in_bulk performs no mixed-kind check and never
raises a mixed-kind error; on any nonempty target list it issues the single
grouped query using the FIRST target's kind, matching every given id
against that kind. -/
theorem bulk_mixed_kind_amended (rows : List Vote) (o : Target)
    (rest : List Target) :
    get_scores_in_bulk rows (o :: rest)
      = Except.ok
          (group_scores rows o.kind (List.map Target.id (o :: rest))) :=
  rfl

/-- C8: for a nonempty single-kind target list, every id present as a key in
the get_scores_in_bulk result carries exactly the score/num_votes pair that
get_score returns for the target with that id. -/
theorem bulk_single_consistency (rows : List Vote) (o : Target)
    (rest : List Target) (k : Nat) (m : List (Nat × ScoreEntry))
    (hk : ∀ t ∈ o :: rest, t.kind = k)
    (hb : get_scores_in_bulk rows (o :: rest) = Except.ok m)
    (i : Nat) (e : ScoreEntry)
    (hl : dict_get m i = some e) :
    get_score rows k i = e := by
  have hm : m = group_scores rows o.kind (List.map Target.id (o :: rest)) := by
    have hdef : get_scores_in_bulk rows (o :: rest)
        = Except.ok
            (group_scores rows o.kind (List.map Target.id (o :: rest))) := rfl
    rw [hdef] at hb
    exact (Except.ok.inj hb).symm
  subst hm
  unfold dict_get at hl
  have hmem := List.mem_reverse.mp (assoc_find_eq_some _ i e hl)
  unfold group_scores at hmem
  obtain ⟨j, _, hfj⟩ := List.mem_filterMap.mp hmem
  cases hsr : score_row rows o.kind j with
  | none =>
      rw [hsr] at hfj
      simp at hfj
  | some x =>
      rw [hsr] at hfj
      simp at hfj
      obtain ⟨hji, hxe⟩ := hfj
      subst hji
      subst hxe
      have hko : o.kind = k := hk o (by simp)
      rw [← hko]
      unfold score_row at hsr
      simp only at hsr
      by_cases hemp : (objVotes rows o.kind j).isEmpty
      · rw [if_pos hemp] at hsr
        exact absurd hsr (by simp)
      · rw [if_neg hemp] at hsr
        have he := Option.some.inj hsr
        unfold get_score sql_sum
        rw [if_neg hemp, orZero_some]
        rw [he]

/-- C8 witness: with one +1 vote on (kind 0, id 5), the bulk lookup over the
single target (0, 5) reports id 5 as score 1 with one vote, and get_score
agrees. -/
theorem bulk_single_consistency_witness :
    get_score ([⟨0, 1, 0, 5, 1⟩] : List Vote) 0 5 = ⟨1, 1⟩ :=
  bulk_single_consistency [⟨0, 1, 0, 5, 1⟩] ⟨0, 5⟩ [] 0
    [(5, ⟨1, 1⟩)] (by decide) rfl 5 ⟨1, 1⟩ rfl

/-- C9: the resolution step of a ranked query keeps, in the ranked order,
exactly the (id, sum) rows whose id the resolver knows, pairing each with
its resolved object, and silently drops every row whose id the resolver
reports missing; the output is never longer than the query result (hence
possibly shorter than the limit), and no missing object makes the
operation error (resolve_ranked is total). -/
theorem resolve_ranked_drops_missing (Obj : Type) (d : Obj)
    (results : List (Nat × Int)) (objects : Nat → Option Obj) :
    resolve_ranked results objects
      = (results.filter (fun p => (objects p.1).isSome)).map
          (fun p => ((objects p.1).getD d, p.2)) ∧
    (resolve_ranked results objects).length ≤ results.length := by
  constructor
  · induction results with
    | nil => rfl
    | cons p t ih =>
        unfold resolve_ranked at ih ⊢
        rw [List.filterMap_cons, List.filter_cons]
        cases h : objects p.1 with
        | none => simp [h, ih]
        | some b => simp [h, ih]
  · exact List.length_filterMap_le _ _

/-- C10: get_for_user_in_bulk performs no authentication check: for an
unauthenticated user whose id matches a stored vote on one of the targets,
get_for_user returns none without querying, while get_for_user_in_bulk
still queries the store filtered by the user's id, returns the mapping of
matching votes keyed by object id, and its dictionary holds an entry for
that target's id, so the single and bulk per-user lookups disagree. -/
theorem bulk_user_lookup_no_auth_check (rows : List Vote) (o : Target)
    (rest : List Target) (u : User)
    (hauth : u.is_authenticated = false)
    (w : Vote) (hw : w ∈ rows) (hct : w.content_type = o.kind)
    (hoid : w.object_id = o.id) (huser : w.user = u.id) :
    get_for_user rows o.kind o.id u = none ∧
    get_for_user_in_bulk rows (o :: rest) u
      = List.map (fun v => (v.object_id, v)) (rows.filter (fun v =>
          v.content_type = o.kind &&
          (List.map Target.id (o :: rest)).contains v.object_id &&
          v.user = u.id)) ∧
    dict_get (get_for_user_in_bulk rows (o :: rest) u) o.id ≠ none := by
  refine ⟨?_, rfl, ?_⟩
  · unfold get_for_user
    rw [hauth]
    simp
  · have hfil : w ∈ rows.filter (fun v =>
        v.content_type = o.kind &&
        (List.map Target.id (o :: rest)).contains v.object_id &&
        v.user = u.id) := by
      refine List.mem_filter.mpr ⟨hw, ?_⟩
      simp [hct, hoid, huser]
    have hmem : (w.object_id, w) ∈ get_for_user_in_bulk rows (o :: rest) u :=
      List.mem_map_of_mem _ hfil
    unfold dict_get
    exact assoc_find_mem _ o.id (w.object_id, w)
      (List.mem_reverse.mpr hmem) hoid

/-- C10 witness: user 7 is unauthenticated and has a stored +1 vote on
(kind 0, id 3); the single lookup returns none while the bulk lookup's
dictionary holds an entry for id 3. -/
theorem bulk_user_lookup_no_auth_check_witness :
    get_for_user ([⟨0, 7, 0, 3, 1⟩] : List Vote) 0 3 ⟨7, false⟩ = none ∧
    dict_get (get_for_user_in_bulk ([⟨0, 7, 0, 3, 1⟩] : List Vote)
        [⟨0, 3⟩] ⟨7, false⟩) 3 ≠ none := by
  have h := bulk_user_lookup_no_auth_check [⟨0, 7, 0, 3, 1⟩] ⟨0, 3⟩ []
    ⟨7, false⟩ rfl ⟨0, 7, 0, 3, 1⟩ (by decide) rfl rfl rfl
  exact ⟨h.1, h.2.2⟩

end Voting
